import Mathlib

/-!
# Verification of the pairreader retrieval-sampling-clustering-aggregation core

Shallow embedding of `src/pairreader/vectorestore.py`, `qa_nodes.py`,
`discovery_nodes.py` and `agents.py` (routing), together with proofs of the
specified properties.

The ChromaDB collection is modelled as a record of fallible operations
(`Except String` results stand for Python exceptions); the language model is
modelled as a pure oracle `List Msg → String`; `asyncio.gather` is modelled as
a sequential fold that keeps results in task order and re-raises the first
failing task's exception, which is `gather`'s documented contract with
`return_exceptions=False`.
-/

/-- Result of `collection.get(ids=[...])`: ids with their aligned document
texts.  A missing id yields empty lists; a stored-but-textless document is a
`""` entry (Python truthiness of `None`/`""` coincide for the checks below). -/
structure GetResult where
  ids : List String
  documents : List String
deriving Repr, DecidableEq

/-- A `where_document` filter condition as built by `VectorStore.query` from
`contains` / `not_contains` terms. -/
inductive WhereDocCond where
  | containsTerm : String → WhereDocCond
  | notContainsTerm : String → WhereDocCond
  | orCond : List WhereDocCond → WhereDocCond

/-- The keyword arguments `VectorStore.query` / `_query_cluster` pass to
`collection.query`: `query_texts`, `n_results`, and the optional
`where_document` filter (absent key modelled as `none`). -/
structure QueryArgs where
  query_texts : List String
  n_results : Nat
  where_document : Option WhereDocCond

/-- Result of `collection.query`: per-query ranked lists of ids, document
texts and metadatas (one inner list per query text; metadata dicts are
opaque strings here). -/
structure QueryResult where
  ids : List (List String)
  documents : List (List String)
  metadatas : List (List String)
deriving Repr, DecidableEq

/-- The ChromaDB collection backend, as the set of operations the embedded
code calls.  Each operation may raise (`Except.error`), modelling backend
failures. -/
structure Collection where
  getAll : Except String (List String)
  getByIds : List String → Except String GetResult
  query : QueryArgs → Except String QueryResult

/-- `VectorStore.get_all_ids`: all document ids, `[]` when the collection is
empty (the code's `if not self.all_ids` branch also returns `[]`). -/
def get_all_ids (c : Collection) : Except String (List String) :=
  match c.getAll with
  | .error e => .error e
  | .ok allIds => if allIds = [] then .ok [] else .ok allIds

/-- `VectorStore.get_len_docs`: `len(self.get_all_ids())`. -/
def get_len_docs (c : Collection) : Except String Nat :=
  match get_all_ids c with
  | .error e => .error e
  | .ok ids => .ok ids.length

/-- Models Python's `random.sample(population, k)`: a `k`-element sample drawn
without replacement, raising `ValueError` when `k` exceeds the population
size (`k : Nat`, so the negative case cannot arise).  The random choice
itself is modelled deterministically as the first `k` elements; every
property proved below depends only on the sample's length and on the error
condition, never on which elements are chosen. -/
def random_sample (population : List String) (k : Nat) : Except String (List String) :=
  if k ≤ population.length then .ok (population.take k)
  else .error "Sample larger than population or is negative"

/-- `VectorStore.get_sample`: the `n_samples` branch is checked first, so
`n_samples` takes precedence when both parameters are given; `p_samples` is
validated to `[0, 1]` and the sample size is `max(1, int(len * p))` (for
`p ≥ 0` Python's `int` truncation is the floor). -/
def get_sample (c : Collection) (n_samples : Option Nat) (p_samples : Option Rat) :
    Except String (List String) :=
  match get_all_ids c with
  | .error e => .error e
  | .ok all_ids =>
    match n_samples with
    | some n =>
      if n < 1 then .error "n_samples must be at least 1"
      else random_sample all_ids (min n all_ids.length)
    | none =>
      match p_samples with
      | some p =>
        if 0 ≤ p ∧ p ≤ 1 then
          random_sample all_ids (max 1 (⌊(all_ids.length : Rat) * p⌋.toNat))
        else .error "Percentage must be between 0.0 and 1.0"
      | none => .error "Either n_samples or p_samples must be provided"

/-- The per-cluster size computed inside `VectorStore.get_clusters`:
`max(1, int(total * percentage))`, raised to `min_cluster_size` when given,
capped at `max_cluster_size` when given, floored at `1`.  (`get_clusters`
evaluates this only after validating `percentage ∈ [0, 1]`, where Python's
`int` truncation equals the floor.) -/
def cluster_size_of (total_docs : Nat) (cluster_percentage : Rat)
    (min_cluster_size max_cluster_size : Option Nat) : Nat :=
  let size0 := max 1 (⌊(total_docs : Rat) * cluster_percentage⌋.toNat)
  let size1 := match min_cluster_size with
    | some m => max size0 m
    | none => size0
  let size2 := match max_cluster_size with
    | some m => min size1 m
    | none => size1
  max 1 size2

/-- `VectorStore._query_cluster`: fetch the anchor document, skip (`none`)
when it is missing or textless, query the collection with the anchor text,
skip when any of the position-0 result lists is missing or empty, otherwise
return the zipped `(id, document)` pairs.  Note there is no `try`/`except`:
a backend error from `get` or `query` propagates. -/
def query_cluster (c : Collection) (sample_id : String) (cluster_size : Nat) :
    Except String (Option (List (String × String))) :=
  match c.getByIds [sample_id] with
  | .error e => .error e
  | .ok sample_doc =>
    match sample_doc.documents with
    | [] => .ok none
    | sample_text :: _ =>
      if sample_text = "" then .ok none
      else
        match c.query ⟨[sample_text], cluster_size, none⟩ with
        | .error e => .error e
        | .ok results =>
          match results.ids, results.documents with
          | ids0 :: _, docs0 :: _ =>
            if ids0 ≠ [] ∧ docs0 ≠ [] then .ok (some (List.zip ids0 docs0))
            else .ok none
          | _, _ => .ok none

/-- `await asyncio.gather(*tasks)` over the per-sample `_query_cluster`
tasks: results are collected in task order; with `return_exceptions` left at
`False`, a failing task's exception is re-raised by the awaiting
`get_clusters`. -/
def gather_clusters (c : Collection) (sample_ids : List String) (cluster_size : Nat) :
    Except String (List (Option (List (String × String)))) :=
  match sample_ids with
  | [] => .ok []
  | sid :: rest =>
    match query_cluster c sid cluster_size with
    | .error e => .error e
    | .ok r =>
      match gather_clusters c rest cluster_size with
      | .error e => .error e
      | .ok rs => .ok (r :: rs)

/-- `VectorStore.get_clusters`: validate `cluster_percentage`, compute the
cluster size from the total document count, run all `_query_cluster` tasks,
filter out the `None` (skipped) results. -/
def get_clusters (c : Collection) (sample_ids : List String) (cluster_percentage : Rat)
    (min_cluster_size max_cluster_size : Option Nat) :
    Except String (List (List (String × String))) :=
  if 0 ≤ cluster_percentage ∧ cluster_percentage ≤ 1 then
    match get_len_docs c with
    | .error e => .error e
    | .ok total_docs =>
      match gather_clusters c sample_ids
          (cluster_size_of total_docs cluster_percentage min_cluster_size max_cluster_size) with
      | .error e => .error e
      | .ok results => .ok (results.filterMap id)
  else .error "Percentage must be between 0.0 and 1.0"

/-- A conversation message (`langchain` `HumanMessage` / `AIMessage`),
reduced to its role and text content. -/
inductive Msg where
  | human : String → Msg
  | ai : String → Msg
deriving Repr, DecidableEq

/-- The `.content` attribute of a message. -/
def Msg.content : Msg → String
  | .human s => s
  | .ai s => s

/-- Splitting a character list at every occurrence of `sep`, keeping empty
segments — the semantics of Python's `str.split(sep)` for a one-character
separator (`"".split` gives `[""]`, adjacent separators give `""` entries). -/
def split_on_char (sep : Char) : List Char → List (List Char)
  | [] => [[]]
  | c :: cs =>
    let rest := split_on_char sep cs
    if c = sep then [] :: rest
    else
      match rest with
      | [] => [[c]]
      | seg :: segs => (c :: seg) :: segs

/-- Python's `response.content.split("\n")`. -/
def py_split_newline (s : String) : List String :=
  (split_on_char (Char.ofNat 10) s.data).map String.mk

/-- Python's `str.strip()`: drop whitespace from both ends (implemented
structurally over the character list so that it evaluates by `decide`;
`Char.isWhitespace` covers the ASCII whitespace the claims exercise). -/
def py_strip (s : String) : String :=
  String.mk (((s.data.dropWhile Char.isWhitespace).reverse.dropWhile
    Char.isWhitespace).reverse)

/-- The subquery parsing in `QueryOptimizer.__call__`:
`[s.strip() for s in response.content.split("\n") if s.strip()]`. -/
def parse_subqueries (content : String) : List String :=
  ((py_split_newline content).filter (fun s => py_strip s ≠ "")).map py_strip

/-- The decomposition `HumanMessage` text built by `QueryOptimizer.__call__`
(the Python source's `'\\n'` renders as a backslash followed by `n`). -/
def decomposition_prompt (user_query : String) : String :=
  "You are a query retrieval optimizer for vector store semantic search. " ++
  "Decompose the following query into simpler, smaller sub-queries better suited for vector store search. " ++
  "Decide yourself how many sub-queries are optimal for retrieval. " ++
  "Each sub-query should be on a new line for correct parsing using split(\x27\\n\x27). " ++
  "User Query: " ++ user_query

/-- The state update returned by `QueryOptimizer.__call__`: the `subqueries`
key, the `messages` entries added by the update, and whether the language
model was invoked at all (instrumentation of the two branches). -/
structure OptimizerUpdate where
  subqueries : List String
  messages_added : List Msg
  model_called : Bool
deriving Repr, DecidableEq

/-- `QueryOptimizer.__call__` with the language model as a pure oracle over
the message list it is streamed: with `query_decomposition` the model
response is parsed into subqueries and the prompt/response pair is appended
to `messages`; otherwise the update is exactly `[user_query]` with no model
call and no message change. -/
def query_optimizer_call (query_decomposition : Bool) (user_query : String)
    (state_messages : List Msg) (llm : List Msg → String) : OptimizerUpdate :=
  if query_decomposition then
    let msg := Msg.human (decomposition_prompt user_query)
    let content := llm (state_messages ++ [msg])
    ⟨parse_subqueries content, [msg, Msg.ai content], true⟩
  else
    ⟨[user_query], [], false⟩

/-- The routing targets of `QAAgent.route_after_human_in_the_loop_approver`. -/
inductive NodeName where
  | query_optimizer
  | info_retriever
deriving Repr, DecidableEq

/-- `schemas.HITLDecision`: a structured decision whose `next_node` is one of
exactly two node names (the pydantic `Literal` cannot be empty or anything
else, so `next_node` is always truthy). -/
structure HITLDecision where
  next_node : NodeName
deriving Repr, DecidableEq

/-- The timeout notification sent by `HumanInTheLoopApprover.__call__`. -/
def hitl_timeout_message : String :=
  "You haven\x27t revised the LLM generated subqueries in the following 90s, we\x27re using them as they are!"

/-- The state update of `HumanInTheLoopApprover.__call__` plus the `send`
notifications it emitted. -/
structure ApproverUpdate where
  human_in_the_loop_decision : Option HITLDecision
  notifications_sent : List String
deriving Repr, DecidableEq

/-- `HumanInTheLoopApprover.__call__`: `UserIO.ask` returns `""` when the
90-second wait elapses with no response (`res["output"] if res else ""`), and
the `if not user_feedback` branch then sends exactly one timeout notification
and records no decision; otherwise the structured-output model (`classify`)
is invoked on the feedback appended to the conversation. -/
def hitl_approver_call (user_feedback : String) (classify : String → HITLDecision) :
    ApproverUpdate :=
  if user_feedback = "" then
    ⟨none, [hitl_timeout_message]⟩
  else
    ⟨some (classify user_feedback), []⟩

/-- `QAAgent.route_after_human_in_the_loop_approver`: follow the decision's
`next_node` when a decision was recorded (its `next_node`, a non-empty
literal, is always truthy), else default to `info_retriever`. -/
def route_after_human_in_the_loop_approver (decision : Option HITLDecision) : NodeName :=
  match decision with
  | some d => d.next_node
  | none => NodeName.info_retriever

/-- The `where_document` argument built by `VectorStore.query` from the
`contains` / `not_contains` term lists: absent when there are no conditions,
the bare condition when there is exactly one, an `$or` of all of them
otherwise. -/
def build_where_document (contains not_contains : List String) : Option WhereDocCond :=
  match contains.map WhereDocCond.containsTerm ++
      not_contains.map WhereDocCond.notContainsTerm with
  | [] => none
  | [cond] => some cond
  | conds => some (WhereDocCond.orCond conds)

/-- `VectorStore.query`: assemble the query arguments and call the
collection. -/
def vectorstore_query (c : Collection) (query_texts : List String)
    (contains not_contains : List String) (n_documents : Nat) :
    Except String QueryResult :=
  c.query ⟨query_texts, n_documents, build_where_document contains not_contains⟩

/-- The state update returned by `InfoRetriever.__call__` (metadata dicts are
opaque strings). -/
structure RetrieverUpdate where
  retrieved_documents : List String
  retrieved_metadatas : List String
deriving Repr, DecidableEq

/-- `InfoRetriever.__call__`: query the store with
`[user_query] + subqueries` and keep `results["documents"][0]` and
`results["metadatas"][0]` (Python raises `IndexError` when the position-0
lists are absent). -/
def info_retriever_call (c : Collection) (user_query : String)
    (subqueries : List String) (n_documents : Nat) : Except String RetrieverUpdate :=
  match vectorstore_query c (user_query :: subqueries) [] [] n_documents with
  | .error e => .error e
  | .ok results =>
    match results.documents, results.metadatas with
    | docs0 :: _, metas0 :: _ => .ok ⟨docs0, metas0⟩
    | _, _ => .error "IndexError: list index out of range"

/-- The `cluster_docs` string built by `MapSummarizer.summarize_cluster`:
`'\n'.join(f"doc {i+1}:\n{doc[1]} " for i, doc in enumerate(cluster))`. -/
def cluster_docs_text (cluster : List (String × String)) : String :=
  String.intercalate "\n"
    (cluster.enum.map (fun p => "doc " ++ toString (p.1 + 1) ++ ":\n" ++ p.2.2 ++ " "))

/-- The `map_summarize_cluster` prompt template from `prompts_msgs.py`. -/
def map_summarize_cluster_prompt (cluster_docs : String) : String :=
  "Summarize the following cluster of documents in a concise and informative manner.\n\n" ++
  cluster_docs

/-- `MapSummarizer.summarize_cluster`: build the prompt from the cluster,
invoke the model on the conversation plus that prompt, return
`[msg, response]`. -/
def summarize_cluster (llm : List Msg → String) (cluster : List (String × String))
    (state_messages : List Msg) : List Msg :=
  let msg := Msg.human (map_summarize_cluster_prompt (cluster_docs_text cluster))
  let response := Msg.ai (llm (state_messages ++ [msg]))
  [msg, response]

/-- `MapSummarizer.__call__`: one `summarize_cluster` task per cluster,
gathered in task order (`asyncio.gather` keeps result order equal to input
order), then `summary[-1].content` of each task's `[msg, response]` pair. -/
def map_summarizer_call (llm : List Msg → String) (state_messages : List Msg)
    (clusters : List (List (String × String))) : List String :=
  let msg_summaries := clusters.map (fun cluster => summarize_cluster llm cluster state_messages)
  msg_summaries.map (fun summary => (summary.getLastD (Msg.ai "")).content)

/-- The cluster-size formula as the spec and claim state it: base size
`max(1, floor(total * cluster_percentage))`, clamped between
`min_cluster_size or base` and `max_cluster_size or base` — read, as the
claim's own gloss fixes it, as "raised to `min_cluster_size` when given, then
capped at `max_cluster_size` when given, then floored at 1" (when neither
bound is given the clamp is the identity on the base). -/
def spec_cluster_size (total : Nat) (cluster_percentage : Rat)
    (min_cluster_size max_cluster_size : Option Nat) : Nat :=
  let base := max 1 (⌊(total : Rat) * cluster_percentage⌋.toNat)
  match min_cluster_size, max_cluster_size with
  | some lo, some hi => max 1 (min (max base lo) hi)
  | some lo, none => max 1 (max base lo)
  | none, some hi => max 1 (min base hi)
  | none, none => base

/-- A collection holding one document `"a"` with text `"ta"`; every backend
operation succeeds. -/
def coll_one_doc : Collection :=
  ⟨.ok ["a"],
   fun _ => .ok ⟨["a"], ["ta"]⟩,
   fun _ => .ok ⟨[["a"]], [["ta"]], [["m"]]⟩⟩

/-- An empty collection; every backend operation succeeds. -/
def coll_empty : Collection :=
  ⟨.ok [],
   fun _ => .ok ⟨[], []⟩,
   fun _ => .ok ⟨[], [], []⟩⟩

/-- A two-document collection whose nearest-neighbour query fails with a
backend error for the anchor text `"ta"` (document `"a"`) and succeeds for
every other anchor. -/
def coll_backend_error : Collection :=
  ⟨.ok ["a", "b"],
   fun ids => if ids = ["a"] then .ok ⟨["a"], ["ta"]⟩ else .ok ⟨["b"], ["tb"]⟩,
   fun args =>
     if args.query_texts = ["ta"] then .error "backend unreachable"
     else .ok ⟨[["b"]], [["tb"]], [["m"]]⟩⟩

/-- A collection whose query returns one ranked list with one document and
one metadata entry, whatever it is asked. -/
def coll_qa : Collection :=
  ⟨.ok ["d1"],
   fun _ => .ok ⟨["d1"], ["text1"]⟩,
   fun _ => .ok ⟨[["d1"]], [["text1"]], [["meta1"]]⟩⟩

/-- C8: with decomposition disabled the query optimizer returns exactly
`[user_query]`, adds no messages, and never invokes the model. -/
theorem query_optimizer_passthrough (user_query : String) (state_messages : List Msg)
    (llm : List Msg → String) :
    query_optimizer_call false user_query state_messages llm =
      ⟨[user_query], [], false⟩ := rfl

/-- C9: on empty (timed-out) feedback the approval gate records no decision,
emits exactly the one timeout notification, and the subsequent routing
function sends the pipeline to `info_retriever` (never back to the query
optimizer). -/
theorem hitl_timeout_proceeds_to_retrieval (classify : String → HITLDecision) :
    (hitl_approver_call "" classify).human_in_the_loop_decision = none ∧
    (hitl_approver_call "" classify).notifications_sent = [hitl_timeout_message] ∧
    route_after_human_in_the_loop_approver
      (hitl_approver_call "" classify).human_in_the_loop_decision =
      NodeName.info_retriever :=
  ⟨rfl, rfl, rfl⟩

/-- C2: for every total count and `cluster_percentage` in `[0, 1]`, the
per-cluster size computed by `get_clusters` equals the spec's formula (base
`max(1, floor(total * percentage))`, raised to `min_cluster_size` when given,
capped at `max_cluster_size` when given, floored at 1). -/
theorem cluster_size_matches_spec (total : Nat) (p : Rat)
    (mn mx : Option Nat) (h0 : 0 ≤ p) (h1 : p ≤ 1) :
    cluster_size_of total p mn mx = spec_cluster_size total p mn mx := by
  cases mn <;> cases mx <;>
    simp only [cluster_size_of, spec_cluster_size] <;> omega

/-- Witness for `cluster_size_matches_spec` at `total = 7`, `p = 1/2`,
`min = 2`, `max = 3`. -/
theorem cluster_size_matches_spec_witness :
    cluster_size_of 7 (1/2 : Rat) (some 2) (some 3) =
      spec_cluster_size 7 (1/2 : Rat) (some 2) (some 3) :=
  cluster_size_matches_spec 7 (1/2) (some 2) (some 3) (by norm_num) (by norm_num)

/-- C5 counterexample: an all-whitespace (yet non-erroring) model response
makes the decomposing optimizer return the empty subquery list, refuting the
non-emptiness guarantee. -/
theorem query_optimizer_blank_response_empty :
    (query_optimizer_call true "What is X?" [] (fun _ => "\n \n")).subqueries = [] := by
  decide

/-- C5 (amended): every subquery produced by the decomposing optimizer is a
non-empty trimmed line of the model response, and the subquery list is empty
exactly when every line of the response is blank. -/
theorem query_optimizer_decompose_nonblank (user_query content : String)
    (state_messages : List Msg) :
    (∀ s ∈ (query_optimizer_call true user_query state_messages
        (fun _ => content)).subqueries,
      s ≠ "" ∧ ∃ line ∈ py_split_newline content, s = py_strip line) ∧
    ((query_optimizer_call true user_query state_messages
        (fun _ => content)).subqueries = [] ↔
      ∀ line ∈ py_split_newline content, py_strip line = "") := by
  have hsub : (query_optimizer_call true user_query state_messages
      (fun _ => content)).subqueries = parse_subqueries content := rfl
  rw [hsub]
  constructor
  · intro s hs
    simp only [parse_subqueries, List.mem_map, List.mem_filter,
      decide_eq_true_eq] at hs
    obtain ⟨line, ⟨hline, hne⟩, heq⟩ := hs
    exact ⟨heq ▸ hne, line, hline, heq.symm⟩
  · simp only [parse_subqueries, List.map_eq_nil_iff, List.filter_eq_nil_iff,
      decide_eq_true_eq, not_not]

/-- C3 counterexample: providing both `n_samples` and `p_samples` does not
raise — the `n_samples` branch is checked first and simply takes precedence,
returning a sample. -/
theorem get_sample_both_params_no_error :
    get_sample coll_one_doc (some 1) (some (1/2 : Rat)) = .ok ["a"] := rfl

/-- C3 (amended): `n_samples` takes precedence when both parameters are
given (the call behaves exactly as if `p_samples` were absent); providing
neither raises `ValueError`; a lone `n_samples ≥ 1` succeeds with
`min(n, |all_ids|)` elements; a lone `p_samples ∈ [0, 1]` passes parameter
validation and hands `max(1, floor(|all_ids| * p))` to `random.sample`
(which itself can still fail on an empty corpus, see C4). -/
theorem get_sample_parameter_validation (c : Collection) (all_ids : List String)
    (n : Nat) (p : Rat) (hall : get_all_ids c = .ok all_ids) (hn : 1 ≤ n)
    (hp0 : 0 ≤ p) (hp1 : p ≤ 1) :
    get_sample c (some n) (some p) = get_sample c (some n) none ∧
    get_sample c none none = .error "Either n_samples or p_samples must be provided" ∧
    get_sample c (some n) none = .ok (all_ids.take (min n all_ids.length)) ∧
    get_sample c none (some p) =
      random_sample all_ids (max 1 (⌊(all_ids.length : Rat) * p⌋.toNat)) := by
  refine ⟨rfl, ?_, ?_, ?_⟩
  · simp only [get_sample, hall]
  · simp only [get_sample, hall]
    rw [if_neg (by omega)]
    simp only [random_sample]
    rw [if_pos (Nat.min_le_right n all_ids.length)]
  · simp only [get_sample, hall]
    rw [if_pos ⟨hp0, hp1⟩]

/-- Witness for `get_sample_parameter_validation` on the one-document
collection with `n = 1`, `p = 1/2`. -/
theorem get_sample_parameter_validation_witness :
    get_sample coll_one_doc (some 1) (some (1/2 : Rat)) =
      get_sample coll_one_doc (some 1) none ∧
    get_sample coll_one_doc none none =
      .error "Either n_samples or p_samples must be provided" ∧
    get_sample coll_one_doc (some 1) none =
      .ok ((["a"] : List String).take (min 1 (["a"] : List String).length)) ∧
    get_sample coll_one_doc none (some (1/2 : Rat)) =
      random_sample ["a"]
        (max 1 (⌊(((["a"] : List String).length : Nat) : Rat) * (1/2 : Rat)⌋.toNat)) :=
  get_sample_parameter_validation coll_one_doc ["a"] 1 (1/2) rfl le_rfl
    (by norm_num) (by norm_num)

/-- C4: on an empty corpus the percentage branch computes sample size
`max(1, floor(0 * p)) = 1` and `random.sample([], 1)` raises `ValueError`
instead of returning the empty sample the code's own log message promises;
the count branch does degrade gracefully to `[]`. -/
theorem get_sample_empty_corpus_percentage_raises :
    get_sample coll_empty none (some (1/2 : Rat)) =
      .error "Sample larger than population or is negative" ∧
    get_sample coll_empty (some 5) none = .ok [] := by
  constructor
  · show (if (0 : Rat) ≤ 1/2 ∧ (1/2 : Rat) ≤ 1 then
        random_sample [] (max 1 (⌊((0 : Nat) : Rat) * (1/2 : Rat)⌋.toNat))
      else .error "Percentage must be between 0.0 and 1.0") =
      .error "Sample larger than population or is negative"
    rw [if_pos (by norm_num)]
    norm_num [random_sample]
  · rfl

/-- C1 counterexample: one anchor's nearest-neighbour query failing with a
backend error makes `get_clusters` raise (there is no per-task `try`/`except`
and `asyncio.gather` re-raises), instead of skipping that cluster and
returning the clusters of the remaining sample ids. -/
theorem get_clusters_backend_error_raises :
    get_clusters coll_backend_error ["a", "b"] 0 none none =
      .error "backend unreachable" := by
  show (if (0 : Rat) ≤ 0 ∧ (0 : Rat) ≤ 1 then _ else _) = _
  rw [if_pos (by norm_num)]
  rfl

/-- If a failed task is preceded only by succeeding tasks, the gather of the
whole batch re-raises that task's error. -/
lemma gather_clusters_first_error (c : Collection) (k : Nat) (post : List String)
    (sid : String) (e : String) (hfail : query_cluster c sid k = .error e) :
    ∀ pre : List String, (∀ x ∈ pre, ∃ r, query_cluster c x k = .ok r) →
      gather_clusters c (pre ++ sid :: post) k = .error e := by
  intro pre
  induction pre with
  | nil =>
    intro _
    simp only [List.nil_append, gather_clusters, hfail]
  | cons a as ih =>
    intro h
    obtain ⟨r, hr⟩ := h a (List.mem_cons_self a as)
    have hrest := ih (fun x hx => h x (List.mem_cons_of_mem a hx))
    simp only [List.cons_append, gather_clusters, hr, List.append_eq, hrest]

/-- C1 (amended): `get_clusters` does not catch per-task backend errors —
when the store get/query for one sample id raises and the tasks before it
succeed, `get_clusters` propagates that error (in addition to raising for an
out-of-range `cluster_percentage` and propagating a failed document count);
per-task skipping happens only for missing/textless anchors or empty result
sets, which return `None` without raising. -/
theorem get_clusters_propagates_task_error (c : Collection) (pre post : List String)
    (sid : String) (p : Rat) (mn mx : Option Nat) (total : Nat) (e : String)
    (hp : 0 ≤ p ∧ p ≤ 1) (htotal : get_len_docs c = .ok total)
    (hpre : ∀ x ∈ pre, ∃ r, query_cluster c x (cluster_size_of total p mn mx) = .ok r)
    (hfail : query_cluster c sid (cluster_size_of total p mn mx) = .error e) :
    get_clusters c (pre ++ sid :: post) p mn mx = .error e := by
  have hg := gather_clusters_first_error c (cluster_size_of total p mn mx)
    post sid e hfail pre hpre
  unfold get_clusters
  rw [if_pos hp]
  simp only [htotal, hg]

/-- Witness for `get_clusters_propagates_task_error`: on
`coll_backend_error`, the succeeding anchor `"b"` followed by the failing
anchor `"a"` makes the whole batch raise. -/
theorem get_clusters_propagates_task_error_witness :
    get_clusters coll_backend_error (["b"] ++ "a" :: []) 0 none none =
      .error "backend unreachable" :=
  get_clusters_propagates_task_error coll_backend_error ["b"] [] "a" 0 none none 2
    "backend unreachable" ⟨by norm_num, by norm_num⟩ rfl
    (by
      intro x hx
      have hxb : x = "b" := by simpa using hx
      subst hxb
      exact ⟨some [("b", "tb")], rfl⟩)
    rfl

/-- `summary[-1]` of the two-element `[msg, response]` list. -/
lemma getLastD_pair (a b d : Msg) : List.getLastD [a, b] d = b := rfl

/-- C6: map summarization returns one summary per input cluster, and the
summary at index `i` is the model's response to exactly cluster `i`'s
documents (labelled `doc 1:`, `doc 2:`, …) appended to the shared
conversation — the gathered results are index-aligned with the input
clusters. -/
theorem map_summarizer_index_aligned (llm : List Msg → String)
    (state_messages : List Msg) (clusters : List (List (String × String))) :
    (map_summarizer_call llm state_messages clusters).length = clusters.length ∧
    map_summarizer_call llm state_messages clusters =
      clusters.map (fun cluster =>
        llm (state_messages ++
          [Msg.human (map_summarize_cluster_prompt (cluster_docs_text cluster))])) := by
  refine ⟨by simp [map_summarizer_call], ?_⟩
  simp only [map_summarizer_call, summarize_cluster, List.map_map]
  exact List.map_congr_left (fun cluster _ => rfl)

/-- C7: the QA retrieval stage queries the store with the query set
`[user_query] + subqueries` (no text filters, so no `where_document`
argument) and stores exactly the ranked document and metadata lists at
position 0 of that combined call's results. -/
theorem info_retriever_uses_first_query_results (c : Collection)
    (user_query : String) (subqueries : List String) (n_documents : Nat)
    (results : QueryResult) (docs0 : List String) (docs_rest : List (List String))
    (metas0 : List String) (metas_rest : List (List String))
    (hq : c.query ⟨user_query :: subqueries, n_documents, none⟩ = .ok results)
    (hd : results.documents = docs0 :: docs_rest)
    (hm : results.metadatas = metas0 :: metas_rest) :
    info_retriever_call c user_query subqueries n_documents = .ok ⟨docs0, metas0⟩ := by
  unfold info_retriever_call vectorstore_query
  rw [show build_where_document [] [] = none from rfl, hq]
  simp only [hd, hm]

/-- Witness for `info_retriever_uses_first_query_results` on `coll_qa`. -/
theorem info_retriever_uses_first_query_results_witness :
    info_retriever_call coll_qa "What is X?" ["sub1", "sub2"] 10 =
      .ok ⟨["text1"], ["meta1"]⟩ :=
  info_retriever_uses_first_query_results coll_qa "What is X?" ["sub1", "sub2"] 10
    ⟨[["d1"]], [["text1"]], [["meta1"]]⟩ ["text1"] [] ["meta1"] [] rfl rfl rfl

/-- A per-anchor task only reports a cluster (`some`) built by zipping two
non-empty position-0 result lists, so a reported cluster is never empty. -/
lemma query_cluster_ok_some_ne_nil (c : Collection) (sid : String) (k : Nat)
    (cl : List (String × String))
    (h : query_cluster c sid k = .ok (some cl)) : cl ≠ [] := by
  unfold query_cluster at h
  split at h
  · exact absurd h (by simp)
  · split at h
    · exact absurd h (by simp)
    · split at h
      · exact absurd h (by simp)
      · split at h
        · exact absurd h (by simp)
        · split at h
          · split at h
            · rename_i hne
              obtain ⟨hids, hdocs⟩ := hne
              simp only [Except.ok.injEq, Option.some.injEq] at h
              intro hnil
              rw [← h] at hnil
              have hlen := congrArg List.length hnil
              simp only [List.length_zip, List.length_nil,
                Nat.min_eq_zero_iff, List.length_eq_zero] at hlen
              cases hlen with
              | inl h1 => exact hids h1
              | inr h1 => exact hdocs h1
            · exact absurd h (by simp)
          · exact absurd h (by simp)

/-- Every result delivered by the gather came from some task's
`query_cluster` call. -/
lemma gather_clusters_ok_mem (c : Collection) (k : Nat) :
    ∀ (ids : List String) (rs : List (Option (List (String × String)))),
      gather_clusters c ids k = .ok rs →
      ∀ r ∈ rs, ∃ x ∈ ids, query_cluster c x k = .ok r := by
  intro ids
  induction ids with
  | nil =>
    intro rs h r hr
    unfold gather_clusters at h
    obtain rfl : ([] : List (Option (List (String × String)))) = rs := by
      simpa using h
    simp at hr
  | cons a as ih =>
    intro rs h r hr
    unfold gather_clusters at h
    split at h
    · exact absurd h (by simp)
    · rename_i r0 hr0
      split at h
      · exact absurd h (by simp)
      · rename_i rs0 hrs0
        obtain rfl : r0 :: rs0 = rs := by simpa using h
        rcases List.mem_cons.mp hr with rfl | hmem
        · exact ⟨a, List.mem_cons_self a as, hr0⟩
        · obtain ⟨x, hx, hqx⟩ := ih rs0 hrs0 r hmem
          exact ⟨x, List.mem_cons_of_mem a hx, hqx⟩

/-- C10: every cluster in a successful `get_clusters` result is non-empty —
anchors that are missing, textless, or yield no results are reported as
`None` by the per-cluster query and filtered out before the cluster list is
returned. -/
theorem get_clusters_members_nonempty (c : Collection) (sample_ids : List String)
    (p : Rat) (mn mx : Option Nat) (clusters : List (List (String × String)))
    (h : get_clusters c sample_ids p mn mx = .ok clusters) :
    ∀ cl ∈ clusters, cl ≠ [] := by
  intro cl hcl
  unfold get_clusters at h
  split at h
  · split at h
    · exact absurd h (by simp)
    · rename_i total_docs _
      split at h
      · exact absurd h (by simp)
      · rename_i results hres
        obtain rfl : results.filterMap id = clusters := by simpa using h
        obtain ⟨r, hrmem, hid⟩ := List.mem_filterMap.mp hcl
        obtain rfl : r = some cl := hid
        obtain ⟨x, _, hqx⟩ := gather_clusters_ok_mem c _ sample_ids results hres
          (some cl) hrmem
        exact query_cluster_ok_some_ne_nil c x _ cl hqx
  · exact absurd h (by simp)

/-- Witness for `get_clusters_members_nonempty`: a successful run on the
one-document collection yields the single non-empty cluster
`[("a", "ta")]`. -/
theorem get_clusters_members_nonempty_witness :
    get_clusters coll_one_doc ["a"] 0 none none = .ok [[("a", "ta")]] ∧
    ([("a", "ta")] : List (String × String)) ≠ [] :=
  have hok : get_clusters coll_one_doc ["a"] 0 none none = .ok [[("a", "ta")]] := by
    show (if (0 : Rat) ≤ 0 ∧ (0 : Rat) ≤ 1 then _ else _) = _
    rw [if_pos (by norm_num)]
    rfl
  ⟨hok, get_clusters_members_nonempty coll_one_doc ["a"] 0 none none [[("a", "ta")]]
    hok [("a", "ta")] (by simp)⟩
